import Mathlib

/-!
Shallow embedding of the salary-dashboard pipeline (src/dashboard.py):
loader output records, the Normalizer (categorical relabeling, integer
coercion of the remote ratio, ISO alpha-2 to alpha-3 lookup), the Filter
Engine (conjunction of five predicates), and the Aggregator (scalar
summary, group-by-mean aggregations, remote-ratio bucketing).

Numeric series values are modelled over the rationals, with an explicit
NaN constructor mirroring the floating-point NaN that the underlying
dataframe library produces on empty reductions.
-/

namespace Dashboard

/-- A value of a numeric reduction over a dataframe column: either a
number or the NaN that the library yields on an empty series. -/
inductive PVal where
  | nan : PVal
  | num : Rat → PVal
deriving DecidableEq, Repr

/-- A raw record as loaded from the CSV, before normalization.  The
remote-ratio column arrives untyped (as text) and is coerced by the
Normalizer. -/
structure RawRecord where
  work_year : Int
  experience_level : String
  employment_type : String
  company_size : String
  remote_ratio : String
  employee_residence : String
  salary_in_usd : Rat
deriving DecidableEq, Repr

/-- A normalized record: categorical fields carry the mapped label (or
none when the raw code was unrecognized, mirroring the NaN that
Series.map leaves), the remote ratio is an integer, and the derived
alpha-3 country code is optional. -/
structure Record where
  work_year : Int
  experience_level : Option String
  employment_type : Option String
  company_size : Option String
  remote_ratio : Int
  employee_residence : String
  salary_in_usd : Rat
  country_iso3 : Option String
deriving DecidableEq, Repr

/-- dashboard.py line 17: map EN/MI/SE/EX to Junior/Mid/Senior/Executive;
any other code maps to an absent label. -/
def experienceMap (c : String) : Option String :=
  if c = "EN" then some "Junior"
  else if c = "MI" then some "Mid"
  else if c = "SE" then some "Senior"
  else if c = "EX" then some "Executive"
  else none

/-- dashboard.py line 18: map S/M/L to Small/Medium/Large. -/
def companySizeMap (c : String) : Option String :=
  if c = "S" then some "Small"
  else if c = "M" then some "Medium"
  else if c = "L" then some "Large"
  else none

/-- dashboard.py line 19: map FT/PT/CT/FL to the employment labels. -/
def employmentTypeMap (c : String) : Option String :=
  if c = "FT" then some "Full-time"
  else if c = "PT" then some "Part-time"
  else if c = "CT" then some "Contract"
  else if c = "FL" then some "Freelance"
  else none

/-- Digit value of a decimal digit character. -/
def digitVal (c : Char) : Option Nat :=
  if '0' ≤ c ∧ c ≤ '9' then some (c.toNat - 48) else none

/-- Parse an unsigned decimal digit string, most significant digit
first; any non-digit character makes the whole string uncoercible. -/
def parseDigitsAux (acc : Nat) : List Char → Option Nat
  | [] => some acc
  | c :: cs =>
    match digitVal c with
    | none => none
    | some d => parseDigitsAux (acc * 10 + d) cs

/-- The integer coercion astype(int) applies to a cell: an optional
minus sign followed by at least one digit; anything else is
uncoercible. -/
def coerceInt (s : String) : Option Int :=
  match s.data with
  | [] => none
  | ['-'] => none
  | '-' :: c :: cs => (parseDigitsAux 0 (c :: cs)).map (fun n => -(n : Int))
  | c :: cs => (parseDigitsAux 0 (c :: cs)).map (fun n => (n : Int))

/-- Normalize one record.  The external country lookup (pycountry,
lines 23-28) is a parameter; its failure becomes an absent country_iso3.
The sole failure point is the integer coercion of remote_ratio
(astype(int), line 20): an uncoercible value yields none, which
normalizeTable turns into the load-time DataError. -/
def normalizeRecord (lookup : String → Option String) (r : RawRecord) :
    Option Record :=
  match coerceInt r.remote_ratio with
  | none => none
  | some n =>
    some { work_year := r.work_year
           experience_level := experienceMap r.experience_level
           employment_type := employmentTypeMap r.employment_type
           company_size := companySizeMap r.company_size
           remote_ratio := n
           employee_residence := r.employee_residence
           salary_in_usd := r.salary_in_usd
           country_iso3 := lookup r.employee_residence }

/-- Normalize the loaded table; an uncoercible remote_ratio anywhere
aborts the whole load with a DataError. -/
def normalizeTable (lookup : String → Option String) :
    List RawRecord → Except String (List Record)
  | [] => Except.ok []
  | r :: rs =>
    match normalizeRecord lookup r with
    | none => Except.error "DataError: remote_ratio not coercible to int"
    | some rec =>
      match normalizeTable lookup rs with
      | Except.error e => Except.error e
      | Except.ok t => Except.ok (rec :: t)

/-- The six sidebar filter selections (dashboard.py lines 44-48): the
multiselect allowed-lists and the remote-ratio slider range. -/
structure FilterParams where
  exp_filter : List (Option String)
  size_filter : List (Option String)
  remote_lo : Int
  remote_hi : Int
  country_filter : List String
  year_filter : List Int

/-- The conjunction of the five boolean masks of dashboard.py
lines 53-60. -/
def matchesFilters (p : FilterParams) (r : Record) : Bool :=
  decide (r.experience_level ∈ p.exp_filter) &&
  decide (r.company_size ∈ p.size_filter) &&
  decide (p.remote_lo ≤ r.remote_ratio) &&
  decide (r.remote_ratio ≤ p.remote_hi) &&
  decide (r.employee_residence ∈ p.country_filter) &&
  decide (r.work_year ∈ p.year_filter)

/-- df_filtered (dashboard.py lines 53-60): boolean-mask selection, i.e.
the subsequence of records satisfying all five predicates. -/
def filterEngine (p : FilterParams) (df : List Record) : List Record :=
  df.filter (matchesFilters p)

/-- Series.mean: NaN on an empty series, else the arithmetic mean. -/
def seriesMean (xs : List Rat) : PVal :=
  if xs.length = 0 then PVal.nan else PVal.num (xs.sum / (xs.length : Rat))

/-- Series.min: NaN on an empty series. -/
def seriesMin : List Rat → PVal
  | [] => PVal.nan
  | x :: xs => PVal.num (xs.foldl min x)

/-- Series.max: NaN on an empty series. -/
def seriesMax : List Rat → PVal
  | [] => PVal.nan
  | x :: xs => PVal.num (xs.foldl max x)

/-- The three scalar summary values of dashboard.py lines 66-68:
mean, min, max of salary_in_usd over the filtered view. -/
def scalarSummary (view : List Record) : PVal × PVal × PVal :=
  (seriesMean (view.map (fun r => r.salary_in_usd)),
   seriesMin (view.map (fun r => r.salary_in_usd)),
   seriesMax (view.map (fun r => r.salary_in_usd)))

/-- Round to nearest with ties to even, as the percent-f format does. -/
def roundHalfEven (q : Rat) : Int :=
  if q - ⌊q⌋ < 1 / 2 then ⌊q⌋
  else if q - ⌊q⌋ > 1 / 2 then ⌊q⌋ + 1
  else if ⌊q⌋ % 2 = 0 then ⌊q⌋ else ⌊q⌋ + 1

/-- Insert a comma after every three digits; the input and output digit
lists are least-significant first. -/
def commaChunks : List Char → List Char
  | a :: b :: c :: d :: rest => a :: b :: c :: ',' :: commaChunks (d :: rest)
  | l => l

/-- An integer with thousands separators, as the {:,.0f} format prints
its rounded value. -/
def fmtThousands (n : Int) : String :=
  let s := String.mk (commaChunks (Nat.toDigits 10 n.natAbs).reverse).reverse
  if n < 0 then "-" ++ s else s

/-- How the f-string interpolation {v:,.0f} renders a reduction value:
NaN prints as "nan" (no error, no sentinel handling), a number prints
rounded with separators. -/
def fmtCurrency : PVal → String
  | PVal.nan => "nan"
  | PVal.num q => fmtThousands (roundHalfEven q)

/-- The three markdown summary lines of dashboard.py lines 66-68: the
reduction value is interpolated into the currency display
unconditionally, whatever it is. -/
def summaryLines (view : List Record) : List String :=
  let sal := view.map (fun r => r.salary_in_usd)
  ["- **Salaire moyen** : $" ++ fmtCurrency (seriesMean sal),
   "- **Salaire minimum** : $" ++ fmtCurrency (seriesMin sal),
   "- **Salaire maximum** : $" ++ fmtCurrency (seriesMax sal)]

/-- Insertion step of the sort used to model the sorted key order of
the group-by aggregations. -/
def insertSorted (le : α → α → Bool) (a : α) : List α → List α
  | [] => [a]
  | b :: t => if le a b then a :: b :: t else b :: insertSorted le a t

/-- Insertion sort; models the ascending key order that groupby (and
the sorted() on the year defaults) produces. -/
def sortBy (le : α → α → Bool) : List α → List α
  | [] => []
  | x :: xs => insertSorted le x (sortBy le xs)

/-- Ascending order on integer keys. -/
def intLe (a b : Int) : Bool := decide (a ≤ b)

/-- Ascending order on string keys. -/
def strLe (a b : String) : Bool := decide (a ≤ b)

/-- Series.unique: the distinct values in first-occurrence order; seen
accumulates the values already emitted. -/
def uniqueAux [DecidableEq α] (seen : List α) : List α → List α
  | [] => []
  | x :: xs =>
    if x ∈ seen then uniqueAux seen xs else x :: uniqueAux (x :: seen) xs

/-- Series.unique over a column (dashboard.py lines 44-48 defaults). -/
def uniqueList [DecidableEq α] (l : List α) : List α := uniqueAux [] l

/-- The records of the view in a given work_year group. -/
def yearMembers (view : List Record) (y : Int) : List Record :=
  view.filter (fun r => decide (r.work_year = y))

/-- The observed work_year keys, ascending, as groupby orders them. -/
def observedYears (view : List Record) : List Int :=
  sortBy intLe (uniqueList (view.map (fun r => r.work_year)))

/-- mean_salary_year (dashboard.py line 77): group the filtered view by
work_year and take the mean salary per group, keys ascending. -/
def mean_salary_year (view : List Record) : List (Int × PVal) :=
  (observedYears view).map
    (fun y => (y, seriesMean ((yearMembers view y).map (fun r => r.salary_in_usd))))

/-- The records of the view in a given company_size group; groupby
drops rows whose key is absent. -/
def sizeMembers (view : List Record) (k : String) : List Record :=
  view.filter (fun r => decide (r.company_size = some k))

/-- The observed company_size labels, ascending; absent labels are
dropped by groupby. -/
def observedSizes (view : List Record) : List String :=
  sortBy strLe (uniqueList (view.filterMap (fun r => r.company_size)))

/-- mean_salary_company (dashboard.py line 96). -/
def mean_salary_company (view : List Record) : List (String × PVal) :=
  (observedSizes view).map
    (fun k => (k, seriesMean ((sizeMembers view k).map (fun r => r.salary_in_usd))))

/-- The records of the view in a given country_iso3 group; groupby
drops rows whose key is absent (NaN). -/
def countryMembers (view : List Record) (k : String) : List Record :=
  view.filter (fun r => decide (r.country_iso3 = some k))

/-- The observed country_iso3 keys, ascending; records with an absent
code contribute no key. -/
def observedCountries (view : List Record) : List String :=
  sortBy strLe (uniqueList (view.filterMap (fun r => r.country_iso3)))

/-- mean_salary_country (dashboard.py line 116). -/
def mean_salary_country (view : List Record) : List (String × PVal) :=
  (observedCountries view).map
    (fun k => (k, seriesMean ((countryMembers view k).map (fun r => r.salary_in_usd))))

/-- pd.cut with bins [0,25,50,75,100] (dashboard.py line 103): the four
half-open-on-the-left intervals, labelled; a value outside every
interval (in particular 0) gets an absent bucket. -/
def remoteGroup (n : Int) : Option String :=
  if 0 < n ∧ n ≤ 25 then some "0-25"
  else if 25 < n ∧ n ≤ 50 then some "26-50"
  else if 50 < n ∧ n ≤ 75 then some "51-75"
  else if 75 < n ∧ n ≤ 100 then some "76-100"
  else none

/-- A filtered-view record after the remote_group column assignment on
the copy (dashboard.py line 103). -/
structure ViewRecord extends Record where
  remote_group : Option String
deriving DecidableEq, Repr

/-- Derive the remote_group column over the filtered view. -/
def addRemoteGroup (view : List Record) : List ViewRecord :=
  view.map (fun r => { toRecord := r, remote_group := remoteGroup r.remote_ratio })

/-- The view records falling in a given remote bucket; a record with an
absent bucket matches none. -/
def bucketMembers (view : List ViewRecord) (k : String) : List ViewRecord :=
  view.filter (fun v => decide (v.remote_group = some k))

/-- The fixed bucket label order of the cut. -/
def bucketLabels : List String := ["0-25", "26-50", "51-75", "76-100"]

/-- Remote-group mean aggregation: one row per bucket that has members
(empty buckets are absent, not zero-filled). -/
def remoteGroupMean (view : List ViewRecord) : List (String × PVal) :=
  (bucketLabels.filter (fun k => decide ((bucketMembers view k) ≠ []))).map
    (fun k => (k, seriesMean ((bucketMembers view k).map (fun v => v.salary_in_usd))))

/-- One recomputation from the normalized table: filter, copy, derive
remote_group on the copy.  Returns the upstream table alongside the
produced view, making the absence of upstream mutation explicit. -/
def pipelineStep (p : FilterParams) (df : List Record) :
    List Record × List ViewRecord :=
  (df, addRemoteGroup (filterEngine p df))

theorem mem_insertSorted (le : α → α → Bool) (a b : α) (l : List α) :
    a ∈ insertSorted le b l ↔ a = b ∨ a ∈ l := by
  induction l with
  | nil => simp [insertSorted]
  | cons c t ih =>
    by_cases h : le b c
    · simp [insertSorted, h]
    · simp only [insertSorted, if_neg h, List.mem_cons, ih]
      tauto

theorem mem_sortBy (le : α → α → Bool) (a : α) (l : List α) :
    a ∈ sortBy le l ↔ a ∈ l := by
  induction l with
  | nil => simp [sortBy]
  | cons x xs ih => simp [sortBy, mem_insertSorted, ih]

theorem pairwise_insertSorted (le : α → α → Bool)
    (htr : ∀ x y z, le x y = true → le y z = true → le x z = true)
    (hto : ∀ x y, le x y = true ∨ le y x = true)
    (a : α) (l : List α)
    (hl : List.Pairwise (fun x y => le x y = true) l) :
    List.Pairwise (fun x y => le x y = true) (insertSorted le a l) := by
  induction l with
  | nil => simp [insertSorted]
  | cons b t ih =>
    rcases List.pairwise_cons.mp hl with ⟨hb, ht⟩
    by_cases h : le a b
    · rw [insertSorted, if_pos h]
      refine List.pairwise_cons.mpr ⟨?_, hl⟩
      intro x hx
      rcases List.mem_cons.mp hx with rfl | hx
      · exact h
      · exact htr a b x h (hb x hx)
    · rw [insertSorted, if_neg h]
      refine List.pairwise_cons.mpr ⟨?_, ih ht⟩
      intro x hx
      rcases (mem_insertSorted le x a t).mp hx with rfl | hx
      · rcases hto x b with hab | hba
        · exact absurd hab h
        · exact hba
      · exact hb x hx

theorem pairwise_sortBy (le : α → α → Bool)
    (htr : ∀ x y z, le x y = true → le y z = true → le x z = true)
    (hto : ∀ x y, le x y = true ∨ le y x = true)
    (l : List α) :
    List.Pairwise (fun x y => le x y = true) (sortBy le l) := by
  induction l with
  | nil => simp [sortBy]
  | cons x xs ih => exact pairwise_insertSorted le htr hto x (sortBy le xs) ih

theorem mem_uniqueAux [DecidableEq α] (a : α) (l : List α) :
    ∀ (seen : List α), a ∈ uniqueAux seen l ↔ a ∈ l ∧ a ∉ seen := by
  induction l with
  | nil => intro seen; simp [uniqueAux]
  | cons x xs ih =>
    intro seen
    by_cases h : x ∈ seen
    · rw [uniqueAux, if_pos h, ih]
      constructor
      · rintro ⟨h1, h2⟩
        exact ⟨List.mem_cons_of_mem x h1, h2⟩
      · rintro ⟨h1, h2⟩
        rcases List.mem_cons.mp h1 with rfl | h1
        · exact absurd h h2
        · exact ⟨h1, h2⟩
    · rw [uniqueAux, if_neg h]
      constructor
      · intro hmem
        rcases List.mem_cons.mp hmem with rfl | hmem
        · exact ⟨List.mem_cons_self a xs, h⟩
        · rcases (ih (x :: seen)).mp hmem with ⟨h1, h2⟩
          exact ⟨List.mem_cons_of_mem x h1,
            fun hs => h2 (List.mem_cons_of_mem x hs)⟩
      · rintro ⟨h1, h2⟩
        by_cases hax : a = x
        · subst hax
          exact List.mem_cons_self a _
        · rcases List.mem_cons.mp h1 with h3 | h3
          · exact absurd h3 hax
          · refine List.mem_cons_of_mem x ((ih (x :: seen)).mpr ⟨h3, ?_⟩)
            intro hs
            rcases List.mem_cons.mp hs with h4 | h4
            · exact hax h4
            · exact h2 h4

theorem mem_uniqueList [DecidableEq α] (a : α) (l : List α) :
    a ∈ uniqueList l ↔ a ∈ l := by
  simp [uniqueList, mem_uniqueAux]

/-- A concrete normalized record for concrete evaluations. -/
def recA : Record :=
  { work_year := 2024, experience_level := some "Senior",
    employment_type := some "Full-time", company_size := some "Medium",
    remote_ratio := 50, employee_residence := "US",
    salary_in_usd := 123456, country_iso3 := some "USA" }

/-- 2020 record with salary 100. -/
def recB : Record :=
  { work_year := 2020, experience_level := some "Junior",
    employment_type := some "Full-time", company_size := some "Small",
    remote_ratio := 0, employee_residence := "FR",
    salary_in_usd := 100, country_iso3 := some "FRA" }

/-- 2020 record with salary 200. -/
def recC : Record :=
  { work_year := 2020, experience_level := some "Mid",
    employment_type := some "Part-time", company_size := some "Medium",
    remote_ratio := 100, employee_residence := "FR",
    salary_in_usd := 200, country_iso3 := some "FRA" }

/-- 2021 record with salary 300. -/
def recD : Record :=
  { work_year := 2021, experience_level := some "Senior",
    employment_type := some "Full-time", company_size := some "Large",
    remote_ratio := 25, employee_residence := "DE",
    salary_in_usd := 300, country_iso3 := some "DEU" }

/-- A three-record filtered view with years out of order. -/
def exampleC7 : List Record := [recD, recB, recC]

/-- Filter selections that allow nothing: every multiselect emptied. -/
def pEmpty : FilterParams :=
  { exp_filter := [], size_filter := [], remote_lo := 0, remote_hi := 100,
    country_filter := [], year_filter := [] }

/-- Filter selections that allow recA. -/
def pAll : FilterParams :=
  { exp_filter := [some "Senior"], size_filter := [some "Medium"],
    remote_lo := 0, remote_hi := 100, country_filter := ["US"],
    year_filter := [2024] }

/-- C1: on an empty filtered set the scalar summary does not signal an
error or a detectable sentinel the display guards on: the mean, min and
max reductions all yield NaN and the code interpolates them straight
into the currency-formatted markdown lines, which read "$nan". -/
theorem empty_filter_summary_nan :
    filterEngine pEmpty [recA] = [] ∧
    scalarSummary (filterEngine pEmpty [recA]) = (PVal.nan, PVal.nan, PVal.nan) ∧
    summaryLines (filterEngine pEmpty [recA]) =
      ["- **Salaire moyen** : $nan",
       "- **Salaire minimum** : $nan",
       "- **Salaire maximum** : $nan"] :=
  ⟨rfl, rfl, rfl⟩

/-- C3: under the cut with boundaries [0,25,50,75,100] and half-open-on-
the-left intervals, ratio 0 gets no bucket (and a record with no bucket
is in no bucket's member set, hence excluded from the remote-group
aggregation), ratio 25 falls in bucket 0-25 and ratio 26 in 26-50. -/
theorem remoteGroup_boundaries :
    remoteGroup 0 = none ∧
    remoteGroup 25 = some "0-25" ∧
    remoteGroup 26 = some "26-50" ∧
    ∀ (view : List ViewRecord) (v : ViewRecord),
      v.remote_group = none → ∀ k, v ∉ bucketMembers view k := by
  refine ⟨by decide, by decide, by decide, ?_⟩
  intro view v hnone k hv
  rcases List.mem_filter.mp hv with ⟨_, hk⟩
  have hsome := of_decide_eq_true hk
  rw [hnone] at hsome
  exact Option.noConfusion hsome

/-- Witness for remoteGroup_boundaries at a concrete view record whose
bucket is absent. -/
theorem remoteGroup_boundaries_witness :
    ({ toRecord := recB, remote_group := none } : ViewRecord).remote_group = none ∧
    ({ toRecord := recB, remote_group := none } : ViewRecord) ∉
      bucketMembers (addRemoteGroup [recB]) "0-25" :=
  ⟨rfl, remoteGroup_boundaries.2.2.2 (addRemoteGroup [recB])
    { toRecord := recB, remote_group := none } rfl "0-25"⟩

/-- C5: the Normalizer maps each valid experience, size and employment
code exactly to its documented label, and any unrecognized code to an
absent label (the map is total, it cannot fail). -/
theorem normalizer_label_map (c : String) :
    experienceMap "EN" = some "Junior" ∧
    experienceMap "MI" = some "Mid" ∧
    experienceMap "SE" = some "Senior" ∧
    experienceMap "EX" = some "Executive" ∧
    companySizeMap "S" = some "Small" ∧
    companySizeMap "M" = some "Medium" ∧
    companySizeMap "L" = some "Large" ∧
    employmentTypeMap "FT" = some "Full-time" ∧
    employmentTypeMap "PT" = some "Part-time" ∧
    employmentTypeMap "CT" = some "Contract" ∧
    employmentTypeMap "FL" = some "Freelance" ∧
    (c ∉ (["EN", "MI", "SE", "EX"] : List String) → experienceMap c = none) ∧
    (c ∉ (["S", "M", "L"] : List String) → companySizeMap c = none) ∧
    (c ∉ (["FT", "PT", "CT", "FL"] : List String) → employmentTypeMap c = none) := by
  refine ⟨rfl, rfl, rfl, rfl, rfl, rfl, rfl, rfl, rfl, rfl, rfl, ?_, ?_, ?_⟩
  · intro h
    simp only [List.mem_cons, List.not_mem_nil, or_false, not_or] at h
    simp [experienceMap, h.1, h.2.1, h.2.2.1, h.2.2.2]
  · intro h
    simp only [List.mem_cons, List.not_mem_nil, or_false, not_or] at h
    simp [companySizeMap, h.1, h.2.1, h.2.2]
  · intro h
    simp only [List.mem_cons, List.not_mem_nil, or_false, not_or] at h
    simp [employmentTypeMap, h.1, h.2.1, h.2.2.1, h.2.2.2]

/-- Witness for normalizer_label_map at the unrecognized code ZZ. -/
theorem normalizer_label_map_witness :
    ("ZZ" : String) ∉ (["EN", "MI", "SE", "EX"] : List String) ∧
    experienceMap "ZZ" = none ∧
    companySizeMap "ZZ" = none ∧
    employmentTypeMap "ZZ" = none :=
  ⟨by decide,
   (normalizer_label_map "ZZ").2.2.2.2.2.2.2.2.2.2.2.1 (by decide),
   (normalizer_label_map "ZZ").2.2.2.2.2.2.2.2.2.2.2.2.1 (by decide),
   (normalizer_label_map "ZZ").2.2.2.2.2.2.2.2.2.2.2.2.2 (by decide)⟩

/-- C2: the Filter Engine is sound (every result record satisfies all
five predicates), complete (every table record satisfying them is in
the result), and preserves multiplicity (a satisfying record appears in
the result exactly as often as in the table). -/
theorem filterEngine_sound_complete (p : FilterParams) (df : List Record) :
    (∀ r ∈ filterEngine p df,
      r.experience_level ∈ p.exp_filter ∧ r.company_size ∈ p.size_filter ∧
      p.remote_lo ≤ r.remote_ratio ∧ r.remote_ratio ≤ p.remote_hi ∧
      r.employee_residence ∈ p.country_filter ∧ r.work_year ∈ p.year_filter) ∧
    (∀ r ∈ df,
      r.experience_level ∈ p.exp_filter → r.company_size ∈ p.size_filter →
      p.remote_lo ≤ r.remote_ratio → r.remote_ratio ≤ p.remote_hi →
      r.employee_residence ∈ p.country_filter → r.work_year ∈ p.year_filter →
      r ∈ filterEngine p df) ∧
    (∀ r : Record,
      r.experience_level ∈ p.exp_filter → r.company_size ∈ p.size_filter →
      p.remote_lo ≤ r.remote_ratio → r.remote_ratio ≤ p.remote_hi →
      r.employee_residence ∈ p.country_filter → r.work_year ∈ p.year_filter →
      List.count r (filterEngine p df) = List.count r df) := by
  refine ⟨?_, ?_, ?_⟩
  · intro r hr
    have h := (List.mem_filter.mp hr).2
    simp only [matchesFilters, Bool.and_eq_true, decide_eq_true_eq] at h
    tauto
  · intro r hrdf h1 h2 h3 h4 h5 h6
    refine List.mem_filter.mpr ⟨hrdf, ?_⟩
    simp only [matchesFilters, Bool.and_eq_true, decide_eq_true_eq]
    tauto
  · intro r h1 h2 h3 h4 h5 h6
    apply List.count_filter
    simp only [matchesFilters, Bool.and_eq_true, decide_eq_true_eq]
    tauto

/-- Witness for filterEngine_sound_complete at a concrete record and
selection. -/
theorem filterEngine_sound_complete_witness :
    recA ∈ filterEngine pAll [recA] ∧
    List.count recA (filterEngine pAll [recA]) = List.count recA [recA] :=
  ⟨(filterEngine_sound_complete pAll [recA]).2.1 recA (List.mem_cons_self recA [])
      (by decide) (by decide) (by decide) (by decide) (by decide) (by decide),
   (filterEngine_sound_complete pAll [recA]).2.2 recA
      (by decide) (by decide) (by decide) (by decide) (by decide) (by decide)⟩

/-- C4: when each multiselect holds exactly the observed values of its
column (the sidebar defaults) and the slider spans [0,100], the filter
returns the whole normalized table in its original order, provided the
table's remote ratios lie in [0,100]. -/
theorem filterEngine_all_observed (df : List Record) (p : FilterParams)
    (hexp : p.exp_filter = uniqueList (df.map (fun r => r.experience_level)))
    (hsize : p.size_filter = uniqueList (df.map (fun r => r.company_size)))
    (hlo : p.remote_lo = 0) (hhi : p.remote_hi = 100)
    (hcty : p.country_filter = uniqueList (df.map (fun r => r.employee_residence)))
    (hyr : p.year_filter = sortBy intLe (uniqueList (df.map (fun r => r.work_year))))
    (hrr : ∀ r ∈ df, 0 ≤ r.remote_ratio ∧ r.remote_ratio ≤ 100) :
    filterEngine p df = df := by
  apply List.filter_eq_self.mpr
  intro r hr
  have h1 : r.experience_level ∈ p.exp_filter := by
    rw [hexp, mem_uniqueList]
    exact List.mem_map_of_mem _ hr
  have h2 : r.company_size ∈ p.size_filter := by
    rw [hsize, mem_uniqueList]
    exact List.mem_map_of_mem _ hr
  have h3 : p.remote_lo ≤ r.remote_ratio := by
    rw [hlo]
    exact (hrr r hr).1
  have h4 : r.remote_ratio ≤ p.remote_hi := by
    rw [hhi]
    exact (hrr r hr).2
  have h5 : r.employee_residence ∈ p.country_filter := by
    rw [hcty, mem_uniqueList]
    exact List.mem_map_of_mem _ hr
  have h6 : r.work_year ∈ p.year_filter := by
    rw [hyr, mem_sortBy, mem_uniqueList]
    exact List.mem_map_of_mem _ hr
  simp only [matchesFilters, Bool.and_eq_true, decide_eq_true_eq]
  tauto

/-- The sidebar defaults over the three-record example table. -/
def pObserved : FilterParams :=
  { exp_filter := uniqueList (exampleC7.map (fun r => r.experience_level)),
    size_filter := uniqueList (exampleC7.map (fun r => r.company_size)),
    remote_lo := 0, remote_hi := 100,
    country_filter := uniqueList (exampleC7.map (fun r => r.employee_residence)),
    year_filter := sortBy intLe (uniqueList (exampleC7.map (fun r => r.work_year))) }

/-- Witness for filterEngine_all_observed on the example table. -/
theorem filterEngine_all_observed_witness :
    (∀ r ∈ exampleC7, 0 ≤ r.remote_ratio ∧ r.remote_ratio ≤ 100) ∧
    filterEngine pObserved exampleC7 = exampleC7 :=
  ⟨by decide,
   filterEngine_all_observed exampleC7 pObserved rfl rfl rfl rfl rfl rfl (by decide)⟩

/-- C10: the Filter Engine is monotone: widening every allowed-set and
the remote range can only grow the result, and the smaller result is a
subsequence of the larger one. -/
theorem filterEngine_monotone (p q : FilterParams) (df : List Record)
    (hexp : ∀ x, x ∈ p.exp_filter → x ∈ q.exp_filter)
    (hsize : ∀ x, x ∈ p.size_filter → x ∈ q.size_filter)
    (hlo : q.remote_lo ≤ p.remote_lo) (hhi : p.remote_hi ≤ q.remote_hi)
    (hcty : ∀ x, x ∈ p.country_filter → x ∈ q.country_filter)
    (hyr : ∀ x, x ∈ p.year_filter → x ∈ q.year_filter) :
    (filterEngine p df).Sublist (filterEngine q df) := by
  apply List.monotone_filter_right
  intro r hp
  simp only [matchesFilters, Bool.and_eq_true, decide_eq_true_eq] at hp ⊢
  have h1 := hexp r.experience_level
  have h2 := hsize r.company_size
  have h3 : p.remote_lo ≤ r.remote_ratio → q.remote_lo ≤ r.remote_ratio :=
    fun h => le_trans hlo h
  have h4 : r.remote_ratio ≤ p.remote_hi → r.remote_ratio ≤ q.remote_hi :=
    fun h => le_trans h hhi
  have h5 := hcty r.employee_residence
  have h6 := hyr r.work_year
  tauto

/-- A selection strictly wider than pAll. -/
def pWide : FilterParams :=
  { exp_filter := [some "Senior", some "Junior"],
    size_filter := [some "Medium", some "Small"],
    remote_lo := 0, remote_hi := 100,
    country_filter := ["US", "FR"], year_filter := [2024, 2020] }

/-- Witness for filterEngine_monotone at concrete nested selections. -/
theorem filterEngine_monotone_witness :
    (∀ x, x ∈ pAll.exp_filter → x ∈ pWide.exp_filter) ∧
    (filterEngine pAll [recA, recB]).Sublist (filterEngine pWide [recA, recB]) :=
  ⟨by decide,
   filterEngine_monotone pAll pWide [recA, recB] (by decide) (by decide)
     (by decide) (by decide) (by decide) (by decide)⟩

/-- C6: a failed ISO alpha-3 lookup leaves the record normalized with
an absent country_iso3 (normalization does not abort), and any record
with an absent code is in no country group while still contributing to
the scalar summary inputs and to its work_year group. -/
theorem country_lookup_absent (lookup : String → Option String)
    (raw : RawRecord) (n : Int)
    (hn : coerceInt raw.remote_ratio = some n)
    (hlk : lookup raw.employee_residence = none) :
    (∃ rec, normalizeRecord lookup raw = some rec ∧ rec.country_iso3 = none) ∧
    (∀ (view : List Record) (r : Record), r ∈ view → r.country_iso3 = none →
      (∀ k, r ∉ countryMembers view k) ∧
      r.salary_in_usd ∈ view.map (fun x => x.salary_in_usd) ∧
      r ∈ yearMembers view r.work_year) := by
  constructor
  · unfold normalizeRecord
    rw [hn]
    exact ⟨_, rfl, hlk⟩
  · intro view r hrv hiso
    refine ⟨?_, ?_, ?_⟩
    · intro k hk
      have h2 := of_decide_eq_true (List.mem_filter.mp hk).2
      rw [hiso] at h2
      exact Option.noConfusion h2
    · exact List.mem_map_of_mem _ hrv
    · exact List.mem_filter.mpr ⟨hrv, by simp⟩

/-- A raw record whose residence code has no alpha-3 mapping. -/
def rawW : RawRecord :=
  { work_year := 2022, experience_level := "SE", employment_type := "FT",
    company_size := "M", remote_ratio := "50", employee_residence := "XX",
    salary_in_usd := 100 }

/-- A normalized record with an absent country code. -/
def recNoIso : Record :=
  { work_year := 2022, experience_level := some "Senior",
    employment_type := some "Full-time", company_size := some "Medium",
    remote_ratio := 50, employee_residence := "XX",
    salary_in_usd := 100, country_iso3 := none }

/-- Witness for country_lookup_absent with an always-failing lookup. -/
theorem country_lookup_absent_witness :
    coerceInt rawW.remote_ratio = some 50 ∧
    (∃ rec, normalizeRecord (fun _ => none) rawW = some rec ∧
      rec.country_iso3 = none) ∧
    (∀ k, recNoIso ∉ countryMembers [recNoIso] k) ∧
    recNoIso ∈ yearMembers [recNoIso] recNoIso.work_year :=
  ⟨by decide,
   (country_lookup_absent (fun _ => none) rawW 50 (by decide) rfl).1,
   ((country_lookup_absent (fun _ => none) rawW 50 (by decide) rfl).2 [recNoIso]
      recNoIso (List.mem_cons_self recNoIso []) rfl).1,
   ((country_lookup_absent (fun _ => none) rawW 50 (by decide) rfl).2 [recNoIso]
      recNoIso (List.mem_cons_self recNoIso []) rfl).2.2⟩

/-- C7: the yearly series pairs each observed work_year with exactly
the arithmetic mean of that year's salaries, its keys are ascending,
and on the concrete example with 2020 salaries 100 and 200 and a 2021
salary 300 it equals [(2020,150),(2021,300)]. -/
theorem mean_salary_year_spec (view : List Record) (y : Int) (m : PVal) :
    ((y, m) ∈ mean_salary_year view ↔
      (y ∈ view.map (fun r => r.work_year) ∧
       m = PVal.num ((((yearMembers view y).map (fun r => r.salary_in_usd)).sum) /
         ((((yearMembers view y).map (fun r => r.salary_in_usd)).length : Nat) : Rat)))) ∧
    List.Pairwise (fun a b : Int × PVal => a.1 ≤ b.1) (mean_salary_year view) ∧
    mean_salary_year exampleC7 = [(2020, PVal.num 150), (2021, PVal.num 300)] := by
  have hmem : ∀ z : Int, z ∈ view.map (fun r => r.work_year) →
      ¬ ((yearMembers view z).map (fun r => r.salary_in_usd)).length = 0 := by
    intro z hz
    rcases List.mem_map.mp hz with ⟨r, hr, hrz⟩
    have hrm : r ∈ yearMembers view z :=
      List.mem_filter.mpr ⟨hr, by simp [hrz]⟩
    have hne : yearMembers view z ≠ [] := List.ne_nil_of_mem hrm
    simp only [List.length_map, List.length_eq_zero]
    exact hne
  refine ⟨?_, ?_, ?_⟩
  · constructor
    · intro h
      rcases List.mem_map.mp h with ⟨k, hk, hkeq⟩
      have hky : k = y := congrArg Prod.fst hkeq
      have hm := congrArg Prod.snd hkeq
      subst hky
      have hk2 : k ∈ view.map (fun r => r.work_year) := by
        unfold observedYears at hk
        rw [mem_sortBy, mem_uniqueList] at hk
        exact hk
      refine ⟨hk2, ?_⟩
      have hm2 : seriesMean ((yearMembers view k).map (fun r => r.salary_in_usd)) = m :=
        hm
      rw [← hm2]
      unfold seriesMean
      rw [if_neg (hmem k hk2)]
    · rintro ⟨hy, rfl⟩
      apply List.mem_map.mpr
      refine ⟨y, ?_, ?_⟩
      · unfold observedYears
        rw [mem_sortBy, mem_uniqueList]
        exact hy
      · unfold seriesMean
        rw [if_neg (hmem y hy)]
  · unfold mean_salary_year
    rw [List.pairwise_map]
    apply List.Pairwise.imp ?_
      (pairwise_sortBy intLe ?_ ?_ (uniqueList (view.map (fun r => r.work_year))))
    · intro a b hab
      exact of_decide_eq_true hab
    · intro x1 x2 x3 h12 h23
      simp only [intLe, decide_eq_true_eq] at h12 h23 ⊢
      omega
    · intro x1 x2
      simp only [intLe, decide_eq_true_eq]
      omega
  · norm_num [mean_salary_year, observedYears, yearMembers, seriesMean,
      exampleC7, recB, recC, recD, uniqueList, uniqueAux, sortBy,
      insertSorted, intLe]

/-- Witness for mean_salary_year_spec: the concrete series value. -/
theorem mean_salary_year_spec_witness :
    mean_salary_year exampleC7 = [(2020, PVal.num 150), (2021, PVal.num 300)] :=
  (mean_salary_year_spec exampleC7 0 PVal.nan).2.2

/-- C8: normalization fails with the DataError whenever some raw
remote_ratio does not coerce to an integer, and succeeds when all
coerce, producing one record per raw row whose remote_ratio is the
coerced integer of a raw row. -/
theorem remote_ratio_coercion (lookup : String → Option String)
    (raws : List RawRecord) :
    ((∃ r ∈ raws, coerceInt r.remote_ratio = none) →
      ∃ e, normalizeTable lookup raws = Except.error e) ∧
    ((∀ r ∈ raws, ∃ n, coerceInt r.remote_ratio = some n) →
      ∃ t, normalizeTable lookup raws = Except.ok t ∧
        t.length = raws.length ∧
        ∀ rec ∈ t, ∃ rr ∈ raws, coerceInt rr.remote_ratio = some rec.remote_ratio) := by
  induction raws with
  | nil =>
    constructor
    · rintro ⟨r, hr, _⟩
      exact absurd hr (List.not_mem_nil r)
    · intro _
      refine ⟨[], rfl, rfl, ?_⟩
      intro rec h
      exact absurd h (List.not_mem_nil rec)
  | cons r rs ih =>
    constructor
    · rintro ⟨s, hs, hsn⟩
      rcases List.mem_cons.mp hs with rfl | hs
      · have hnone : normalizeRecord lookup s = none := by
          unfold normalizeRecord
          rw [hsn]
        refine ⟨"DataError: remote_ratio not coercible to int", ?_⟩
        unfold normalizeTable
        rw [hnone]
      · cases hrec : normalizeRecord lookup r with
        | none =>
          refine ⟨"DataError: remote_ratio not coercible to int", ?_⟩
          unfold normalizeTable
          rw [hrec]
        | some rec =>
          rcases ih.1 ⟨s, hs, hsn⟩ with ⟨e, he⟩
          refine ⟨e, ?_⟩
          unfold normalizeTable
          rw [hrec, he]
    · intro hall
      rcases hall r (List.mem_cons_self r rs) with ⟨n, hn⟩
      have hrec : normalizeRecord lookup r =
          some { work_year := r.work_year,
                 experience_level := experienceMap r.experience_level,
                 employment_type := employmentTypeMap r.employment_type,
                 company_size := companySizeMap r.company_size,
                 remote_ratio := n,
                 employee_residence := r.employee_residence,
                 salary_in_usd := r.salary_in_usd,
                 country_iso3 := lookup r.employee_residence } := by
        unfold normalizeRecord
        rw [hn]
      rcases ih.2 (fun s hs => hall s (List.mem_cons_of_mem r hs)) with
        ⟨t, ht, hlen, hmap⟩
      refine ⟨{ work_year := r.work_year,
                experience_level := experienceMap r.experience_level,
                employment_type := employmentTypeMap r.employment_type,
                company_size := companySizeMap r.company_size,
                remote_ratio := n,
                employee_residence := r.employee_residence,
                salary_in_usd := r.salary_in_usd,
                country_iso3 := lookup r.employee_residence } :: t, ?_, ?_, ?_⟩
      · unfold normalizeTable
        rw [hrec, ht]
      · simp [hlen]
      · intro rec hrect
        rcases List.mem_cons.mp hrect with rfl | hrect
        · exact ⟨r, List.mem_cons_self r rs, hn⟩
        · rcases hmap rec hrect with ⟨rr, hrr, hrrn⟩
          exact ⟨rr, List.mem_cons_of_mem r hrr, hrrn⟩

/-- A raw record whose remote_ratio does not coerce. -/
def rawBad : RawRecord :=
  { work_year := 2022, experience_level := "SE", employment_type := "FT",
    company_size := "M", remote_ratio := "abc", employee_residence := "US",
    salary_in_usd := 100 }

/-- Witness for remote_ratio_coercion: failure on a bad row, success on
a good one. -/
theorem remote_ratio_coercion_witness :
    (∃ e, normalizeTable (fun _ => none) [rawBad] = Except.error e) ∧
    (∃ t, normalizeTable (fun _ => none) [rawW] = Except.ok t ∧
      t.length = [rawW].length ∧
      ∀ rec ∈ t, ∃ rr ∈ [rawW], coerceInt rr.remote_ratio = some rec.remote_ratio) :=
  ⟨(remote_ratio_coercion (fun _ => none) [rawBad]).1
      ⟨rawBad, List.mem_cons_self rawBad [], by decide⟩,
   (remote_ratio_coercion (fun _ => none) [rawW]).2 (by
      intro s hs
      rcases List.mem_cons.mp hs with rfl | h
      · exact ⟨50, by decide⟩
      · exact absurd h (List.not_mem_nil s))⟩

/-- C9: one recomputation step returns the upstream normalized table
unchanged, and every record of the produced view carries, as its base
fields, an unmodified record of the table. -/
theorem pipeline_no_mutation (p : FilterParams) (df : List Record) :
    (pipelineStep p df).1 = df ∧
    ∀ v ∈ (pipelineStep p df).2, v.toRecord ∈ df := by
  refine ⟨rfl, ?_⟩
  intro v hv
  rcases List.mem_map.mp hv with ⟨r, hr, rfl⟩
  exact List.mem_of_mem_filter hr

/-- Witness for pipeline_no_mutation at a concrete table and view
record. -/
theorem pipeline_no_mutation_witness :
    (pipelineStep pAll [recA]).1 = [recA] ∧
    ({ toRecord := recA, remote_group := remoteGroup recA.remote_ratio } :
      ViewRecord).toRecord ∈ [recA] :=
  ⟨(pipeline_no_mutation pAll [recA]).1,
   (pipeline_no_mutation pAll [recA]).2 _ (by decide)⟩

end Dashboard
